import Mathlib

/-!
Shallow embedding of the thorlabs-kdc101 Go library (packages
`thorlabskdc101`, `protocol`, `internal/utils`) and proofs about it.

Modelling conventions:
* Go `byte` / `uint16` / `uint32` values are `Nat`; where the source
  performs a narrowing conversion (`byte(x)`, `uint16(x)`) the embedding
  applies the corresponding `% 256` / `% 65536` or `&&& 0xFF` mask exactly
  where the source does.  Signed `int16` / `int32` values are `Int`,
  reconstructed from the unsigned reading exactly as the twos-complement
  reinterpretation the source performs.
* Go `float64` arithmetic is modelled as exact rational arithmetic on `ℚ`;
  the Go float-to-integer conversion (truncation toward zero) is `ftrunc`.
  Every concrete value proved below is far enough from a truncation
  boundary that exact-rational and IEEE-754 evaluation agree.
* The `unicomm.Unicomm` transport owned by the controller is modelled as an
  explicit `Unicomm` state threaded through every operation: a script of
  pending read results, a log of performed writes, and a count of performed
  reads.  `read n` yields the next scripted result when it has exactly `n`
  bytes (the transport contract: a read blocks until exactly `n` bytes are
  available or fails) and a transport failure otherwise.
* A Go runtime panic (index / slice out of range) is the distinguished
  outcome `Outcome.crash`, separate from every `error` return value.
-/

set_option linter.unusedVariables false

-- ===== internal/utils: little-endian byte packing =====

/-- `binary.LittleEndian.Uint16` of a 2-byte slice (utils.BytesToWord). -/
def BytesToWord (data : List Nat) : Nat :=
  (data.getD 1 0) <<< 8 ||| data.getD 0 0

/-- `binary.LittleEndian.Uint32` of a 4-byte slice (utils.BytesToDword). -/
def BytesToDword (data : List Nat) : Nat :=
  ((data.getD 0 0 ||| (data.getD 1 0) <<< 8) ||| (data.getD 2 0) <<< 16) |||
    (data.getD 3 0) <<< 24

/-- utils.BytesToLong: the 4 little-endian bytes read as an unsigned 32-bit
value and reinterpreted as a signed `int32`. -/
def BytesToLong (data : List Nat) : Int :=
  let u := BytesToDword data
  if u < 2 ^ 31 then (u : Int) else (u : Int) - 2 ^ 32

/-- utils.BytesToShort: 2 little-endian bytes reinterpreted as `int16`. -/
def BytesToShort (data : List Nat) : Int :=
  let u := BytesToWord data
  if u < 2 ^ 15 then (u : Int) else (u : Int) - 2 ^ 16

/-- utils.WordToBytes: `binary.LittleEndian.PutUint16`. -/
def WordToBytes (value : Nat) : List Nat :=
  [value % 256, (value >>> 8) % 256]

/-- utils.DwordToBytes: `binary.LittleEndian.PutUint32`. -/
def DwordToBytes (value : Nat) : List Nat :=
  [value % 256, (value >>> 8) % 256, (value >>> 16) % 256, (value >>> 24) % 256]

/-- utils.LongToBytes: `uint32(value)` (twos complement) then PutUint32. -/
def LongToBytes (value : Int) : List Nat :=
  DwordToBytes (value % 2 ^ 32).toNat

/-- utils.ShortToBytes: `uint16(value)` then PutUint16. -/
def ShortToBytes (value : Int) : List Nat :=
  WordToBytes (value % 2 ^ 16).toNat

-- ===== protocol/utils.go: calibration tables and unit conversions =====

/-- protocol.MotorTFactor: `map[string]float64` with both motor families
sharing the constant `2048.0 / (6.0 * 1e6)`. -/
def MotorTFactorTable : List (String × ℚ) :=
  [("Brushed", 2048 / 6000000), ("Brushless", 2048 / 6000000)]

/-- protocol.StageScalingFactor: `map[string]float64` of datasheet scale
constants, keyed by stage type. -/
def StageScalingFactorTable : List (String × ℚ) :=
  [("MTS25-Z8", 34554.96), ("MTS50-Z8", 34554.96), ("Z8xx", 34554.96),
   ("Z6xx", 24600), ("PRM1-Z8", 1919.6418578623391),
   ("PRMTZ8", 1919.6418578623391), ("CR1-Z7", 12288), ("KVS30", 20000)]

/-- Go map read `MotorTFactor[m]`: the zero value `0.0` when the key is
absent. -/
def MotorTFactor (m : String) : ℚ :=
  (MotorTFactorTable.lookup m).getD 0

/-- Go map read `StageScalingFactor[s]`: the zero value `0.0` when the key
is absent. -/
def StageScalingFactor (s : String) : ℚ :=
  (StageScalingFactorTable.lookup s).getD 0

/-- The controller value (protocol.KDC101).  The `Communication` field is
modelled separately as the threaded `Unicomm` state. -/
structure KDC101 where
  stageType : String
  motorType : String
deriving Repr, DecidableEq

/-- thorlabskdc101.New: builds the controller record from the chosen stage
and motor labels.  It performs no validation and cannot fail. -/
def New (stage : String) (motor : String) : KDC101 :=
  { stageType := stage, motorType := motor }

/-- Go float-to-integer conversion: truncation toward zero (defined when
the value is representable in the target width).  `Int.div` rounds toward
zero, so `Int.tdiv q.num q.den` is exactly the truncation of `q`. -/
def ftrunc (q : ℚ) : Int :=
  q.num.tdiv (q.den : Int)

/-- KDC101.PositionToCounts: `int32(position * StageScalingFactor[k.StageType])`. -/
def KDC101.PositionToCounts (k : KDC101) (position : ℚ) : Int :=
  ftrunc (position * StageScalingFactor k.stageType)

/-- KDC101.CountsToPosition: `float64(counts) / encCount`. -/
def KDC101.CountsToPosition (k : KDC101) (counts : Int) : ℚ :=
  (counts : ℚ) / StageScalingFactor k.stageType

/-- KDC101.VelocityToCounts: `uint32(velocity * T * 65536 * encCount)`.
Faithful to the Go conversion for results in `[0, 2^32)`. -/
def KDC101.VelocityToCounts (k : KDC101) (velocity : ℚ) : Nat :=
  (ftrunc (velocity * MotorTFactor k.motorType * 65536 *
    StageScalingFactor k.stageType)).toNat

/-- KDC101.CountsToVelocity: `float64(counts) / (T * 65536 * encCount)`. -/
def KDC101.CountsToVelocity (k : KDC101) (counts : Nat) : ℚ :=
  (counts : ℚ) / (MotorTFactor k.motorType * 65536 *
    StageScalingFactor k.stageType)

/-- KDC101.AccelerationToCounts:
`uint32(acceleration * (T * T) * 65536 * encCount)`.  Faithful to the Go
conversion for results in `[0, 2^32)`. -/
def KDC101.AccelerationToCounts (k : KDC101) (acceleration : ℚ) : Nat :=
  (ftrunc (acceleration * (MotorTFactor k.motorType * MotorTFactor k.motorType) *
    65536 * StageScalingFactor k.stageType)).toNat

/-- KDC101.CountsToAcceleration:
`float64(counts) / (T * T * 65536 * encCount)`. -/
def KDC101.CountsToAcceleration (k : KDC101) (counts : Int) : ℚ :=
  (counts : ℚ) / (MotorTFactor k.motorType * MotorTFactor k.motorType * 65536 *
    StageScalingFactor k.stageType)

-- ===== protocol/protocol.go: endpoints, messages, transport, codec =====

/-- Endpoint byte protocol.Host. -/
def Host : Nat := 0x01

/-- Endpoint byte protocol.Rack (named `RackEndpoint` here because Mathlib
already uses the name `Rack`). -/
def RackEndpoint : Nat := 0x02

/-- Endpoint byte protocol.GenericUnit. -/
def GenericUnit : Nat := 0x50

/-- protocol.HeaderMessage: six bytes on the wire, no payload. -/
structure HeaderMessage where
  id : Nat
  parameter1 : Nat
  parameter2 : Nat
  destination : Nat
  source : Nat
deriving Repr, DecidableEq

/-- protocol.DataMessage: six-byte header plus payload. -/
structure DataMessage where
  id : Nat
  dataLength : Nat
  destination : Nat
  source : Nat
  data : List Nat
deriving Repr, DecidableEq

/-- The error values the embedded operations can return. -/
inductive Err where
  | channelNotSupported
  | invalidResponseLength
  | invalidDataLength (n : Nat)
  | transport
deriving Repr, DecidableEq

/-- Result of running an embedded Go function: a normal value, a returned
`error`, or a runtime panic (index / slice out of range). -/
inductive Outcome (α : Type) where
  | ok (val : α)
  | err (e : Err)
  | crash
deriving Repr, DecidableEq

/-- The transport state: scripted read results, the log of writes
performed, and the number of reads performed. -/
structure Unicomm where
  reads : List (List Nat)
  writes : List (List Nat)
  readCount : Nat
deriving Repr, DecidableEq

/-- Transport write: always succeeds and appends the bytes to the log. -/
def Unicomm.write (c : Unicomm) (bs : List Nat) : Unicomm :=
  { c with writes := c.writes ++ [bs] }

/-- Transport read of exactly `n` bytes: consumes the next scripted result;
fails (`none`) when the script is exhausted or the result does not carry
exactly `n` bytes. -/
def Unicomm.read (c : Unicomm) (n : Nat) : Option (List Nat) × Unicomm :=
  match c.reads with
  | [] => (none, { c with readCount := c.readCount + 1 })
  | r :: rest =>
      (if r.length = n then some r else none,
       { c with reads := rest, readCount := c.readCount + 1 })

/-- Go slice expression `l[a:b]`: defined only when `a ≤ b ≤ len(l)`,
otherwise a runtime panic (`none`). -/
def goSlice (l : List Nat) (a b : Nat) : Option (List Nat) :=
  if a ≤ b ∧ b ≤ l.length then some ((l.drop a).take (b - a)) else none

/-- Go index expression `l[i]` for a list delivered by a transport read;
`Unicomm.read` guarantees the read result has the requested length, so the
index is always in bounds where this helper is used. -/
def idx (l : List Nat) (i : Nat) : Nat :=
  l.getD i 0

/-- Error-propagating sequencing of two embedded computations, mirroring
the Go `if err != nil { return }` pattern. -/
def Outcome.bind {α β : Type} :
    Outcome α × Unicomm → (α → Unicomm → Outcome β × Unicomm) →
    Outcome β × Unicomm
  | (Outcome.ok a, c), f => f a c
  | (Outcome.err e, c), _ => (Outcome.err e, c)
  | (Outcome.crash, c), _ => (Outcome.crash, c)

/-- KDC101.WriteHeaderOnly: serialize the six header bytes and write them. -/
def WriteHeaderOnly (msg : HeaderMessage) (c : Unicomm) :
    Outcome Unit × Unicomm :=
  (Outcome.ok (),
   c.write [msg.id &&& 0x00FF, msg.id >>> 8, msg.parameter1, msg.parameter2,
            msg.destination, msg.source])

/-- KDC101.WriteData: serialize the six header bytes — with `0x80` ORed
into the destination — append the payload verbatim, and write the frame. -/
def WriteData (msg : DataMessage) (c : Unicomm) : Outcome Unit × Unicomm :=
  (Outcome.ok (),
   c.write ([msg.id &&& 0x00FF, msg.id >>> 8, msg.dataLength &&& 0x00FF,
             msg.dataLength >>> 8, msg.destination ||| 0x80, msg.source] ++
            msg.data))

/-- KDC101.ReadHeaderOnly: read six bytes and rebuild the header fields. -/
def ReadHeaderOnly (c : Unicomm) : Outcome HeaderMessage × Unicomm :=
  match c.read 6 with
  | (none, c1) => (Outcome.err Err.transport, c1)
  | (some response, c1) =>
      (Outcome.ok
        { id := (idx response 1) <<< 8 ||| idx response 0,
          parameter1 := idx response 2,
          parameter2 := idx response 3,
          destination := idx response 4,
          source := idx response 5 }, c1)

/-- KDC101.ReadData: read the six header bytes, fail with the
invalid-data-length error when the declared length is `< 1`, otherwise read
exactly that many payload bytes.  The destination byte is stored as read —
the source performs no masking of the `0x80` bit. -/
def ReadData (c : Unicomm) : Outcome DataMessage × Unicomm :=
  match c.read 6 with
  | (none, c1) => (Outcome.err Err.transport, c1)
  | (some response, c1) =>
      let dataLength := (idx response 3) <<< 8 ||| idx response 2
      if dataLength < 1 then
        (Outcome.err (Err.invalidDataLength dataLength), c1)
      else
        match c1.read dataLength with
        | (none, c2) => (Outcome.err Err.transport, c2)
        | (some data, c2) =>
            (Outcome.ok
              { id := (idx response 1) <<< 8 ||| idx response 0,
                dataLength := dataLength,
                destination := idx response 4,
                source := idx response 5,
                data := data }, c2)

/-- KDC101.RequestHeaderOnly: write the request, settle, read a header-only
reply (the fixed settle delay has no observable effect in this model). -/
def RequestHeaderOnly (msg : HeaderMessage) (c : Unicomm) :
    Outcome HeaderMessage × Unicomm :=
  Outcome.bind (WriteHeaderOnly msg c) fun _ c1 => ReadHeaderOnly c1

/-- KDC101.RequestData: write the request, settle, read a data reply. -/
def RequestData (msg : HeaderMessage) (c : Unicomm) :
    Outcome DataMessage × Unicomm :=
  Outcome.bind (WriteHeaderOnly msg c) fun _ c1 => ReadData c1

-- ===== command catalog =====

/-- The channel bitmask byte `byte(1 << (channel - 1))` used by every
channelled request. -/
def chmask (channel : Nat) : Nat :=
  (1 <<< (channel - 1)) % 256

/-- KDC101.Identify (0x0223): flash the front panel LEDs; fire-and-forget. -/
def Identify (k : KDC101) (channel : Nat) (c : Unicomm) :
    Outcome Unit × Unicomm :=
  if channel ≠ 1 then (Outcome.err Err.channelNotSupported, c)
  else
    WriteHeaderOnly
      { id := 0x0223, parameter1 := chmask channel, parameter2 := 0x00,
        destination := GenericUnit, source := Host } c

/-- KDC101.Enable (0x0224): enable (`param2 = 1`) or disable (`param2 = 2`)
the drive channel; fire-and-forget. -/
def Enable (k : KDC101) (channel : Nat) (enable : Bool) (c : Unicomm) :
    Outcome Unit × Unicomm :=
  if channel ≠ 1 then (Outcome.err Err.channelNotSupported, c)
  else
    let base : HeaderMessage :=
      { id := 0x0224, parameter1 := chmask channel, parameter2 := 0,
        destination := GenericUnit, source := Host }
    WriteHeaderOnly
      (if enable then { base with parameter2 := 0x01 }
       else { base with parameter2 := 0x02 }) c

/-- KDC101.IsEnabled (0x0211): request the enabled state; a reply whose
`param2 == 1` means enabled. -/
def IsEnabled (k : KDC101) (channel : Nat) (c : Unicomm) :
    Outcome Bool × Unicomm :=
  if channel ≠ 1 then (Outcome.err Err.channelNotSupported, c)
  else
    Outcome.bind
      (RequestHeaderOnly
        { id := 0x0211, parameter1 := chmask channel, parameter2 := 0,
          destination := GenericUnit, source := Host } c)
      fun response c1 => (Outcome.ok (decide (response.parameter2 = 0x01)), c1)

/-- KDC101.StartHomeMove (0x0443): start the homing sequence. -/
def StartHomeMove (k : KDC101) (channel : Nat) (c : Unicomm) :
    Outcome Unit × Unicomm :=
  if channel ≠ 1 then (Outcome.err Err.channelNotSupported, c)
  else
    WriteHeaderOnly
      { id := 0x0443, parameter1 := chmask channel, parameter2 := 0,
        destination := GenericUnit, source := Host } c

/-- KDC101.StartRelativeMove (0x0448, header only). -/
def StartRelativeMove (k : KDC101) (channel : Nat) (c : Unicomm) :
    Outcome Unit × Unicomm :=
  if channel ≠ 1 then (Outcome.err Err.channelNotSupported, c)
  else
    WriteHeaderOnly
      { id := 0x0448, parameter1 := chmask channel, parameter2 := 0,
        destination := GenericUnit, source := Host } c

/-- KDC101.MoveRelativeDistance (0x0448, data): channel mask, reserved
zero byte, then the distance counts as four little-endian bytes. -/
def MoveRelativeDistance (k : KDC101) (channel : Nat) (distance : ℚ)
    (c : Unicomm) : Outcome Unit × Unicomm :=
  if channel ≠ 1 then (Outcome.err Err.channelNotSupported, c)
  else
    let counts := k.PositionToCounts distance
    let data := [chmask channel, 0x00] ++ LongToBytes counts
    WriteData
      { id := 0x0448, dataLength := data.length % 65536,
        destination := GenericUnit, source := Host, data := data } c

/-- KDC101.StartAbsoluteMove (0x0453, header only). -/
def StartAbsoluteMove (k : KDC101) (channel : Nat) (c : Unicomm) :
    Outcome Unit × Unicomm :=
  if channel ≠ 1 then (Outcome.err Err.channelNotSupported, c)
  else
    WriteHeaderOnly
      { id := 0x0453, parameter1 := chmask channel, parameter2 := 0,
        destination := GenericUnit, source := Host } c

/-- KDC101.MoveAbsolutePosition (0x0453, data): channel mask, reserved
zero byte, then the target position counts as four little-endian bytes. -/
def MoveAbsolutePosition (k : KDC101) (channel : Nat) (position : ℚ)
    (c : Unicomm) : Outcome Unit × Unicomm :=
  if channel ≠ 1 then (Outcome.err Err.channelNotSupported, c)
  else
    let counts := k.PositionToCounts position
    let data := [chmask channel, 0x00] ++ LongToBytes counts
    WriteData
      { id := 0x0453, dataLength := data.length % 65536,
        destination := GenericUnit, source := Host, data := data } c

/-- KDC101.StartJogMove (0x046A): `param2` carries the direction byte. -/
def StartJogMove (k : KDC101) (channel : Nat) (direction : Nat)
    (c : Unicomm) : Outcome Unit × Unicomm :=
  if channel ≠ 1 then (Outcome.err Err.channelNotSupported, c)
  else
    WriteHeaderOnly
      { id := 0x046A, parameter1 := chmask channel, parameter2 := direction,
        destination := GenericUnit, source := Host } c

/-- KDC101.MoveContinuous (0x0457): `param2` carries the direction byte. -/
def MoveContinuous (k : KDC101) (channel : Nat) (direction : Nat)
    (c : Unicomm) : Outcome Unit × Unicomm :=
  if channel ≠ 1 then (Outcome.err Err.channelNotSupported, c)
  else
    WriteHeaderOnly
      { id := 0x0457, parameter1 := chmask channel, parameter2 := direction,
        destination := GenericUnit, source := Host } c

/-- KDC101.Stop (0x0465): `param2` carries the stop mode byte. -/
def Stop (k : KDC101) (channel : Nat) (mode : Nat) (c : Unicomm) :
    Outcome Unit × Unicomm :=
  if channel ≠ 1 then (Outcome.err Err.channelNotSupported, c)
  else
    WriteHeaderOnly
      { id := 0x0465, parameter1 := chmask channel, parameter2 := mode,
        destination := GenericUnit, source := Host } c

/-- protocol.VelocityProfile. -/
structure VelocityProfile where
  minVelocity : ℚ
  maxVelocity : ℚ
  acceleration : ℚ
deriving Repr, DecidableEq

/-- protocol.JogParameters. -/
structure JogParameters where
  mode : Nat
  stepSize : ℚ
  minVelocity : ℚ
  acceleration : ℚ
  maxVelocity : ℚ
  stopMode : Nat
deriving Repr, DecidableEq

/-- KDC101.SetTrapezoidalVelocity (0x0413, data): channel mask, reserved
byte, then minVelocity, acceleration and maxVelocity counts, each as an
unsigned 32-bit little-endian field. -/
def SetTrapezoidalVelocity (k : KDC101) (channel : Nat)
    (profile : VelocityProfile) (c : Unicomm) : Outcome Unit × Unicomm :=
  if channel ≠ 1 then (Outcome.err Err.channelNotSupported, c)
  else
    let minVel := k.VelocityToCounts profile.minVelocity
    let accel := k.AccelerationToCounts profile.acceleration
    let maxVel := k.VelocityToCounts profile.maxVelocity
    let data := [chmask channel, 0x00] ++ DwordToBytes minVel ++
      DwordToBytes accel ++ DwordToBytes maxVel
    WriteData
      { id := 0x0413, dataLength := data.length % 65536,
        destination := GenericUnit, source := Host, data := data } c

/-- KDC101.GetTrapezoidalVelocity (0x0414): request the profile; replies
shorter than 14 bytes fail; minVelocity and maxVelocity are decoded as
unsigned 32-bit counts but the acceleration is decoded as a signed 32-bit
count (`BytesToLong`). -/
def GetTrapezoidalVelocity (k : KDC101) (channel : Nat) (c : Unicomm) :
    Outcome VelocityProfile × Unicomm :=
  if channel ≠ 1 then (Outcome.err Err.channelNotSupported, c)
  else
    Outcome.bind
      (RequestData
        { id := 0x0414, parameter1 := chmask channel, parameter2 := 0,
          destination := GenericUnit, source := Host } c)
      fun response c1 =>
        let data := response.data
        if data.length < 14 then
          (Outcome.err Err.invalidResponseLength, c1)
        else
          match goSlice data 2 6, goSlice data 6 10, goSlice data 10 14 with
          | some sMin, some sAcc, some sMax =>
              (Outcome.ok
                { minVelocity := k.CountsToVelocity (BytesToDword sMin),
                  acceleration := k.CountsToAcceleration (BytesToLong sAcc),
                  maxVelocity := k.CountsToVelocity (BytesToDword sMax) }, c1)
          | _, _, _ => (Outcome.crash, c1)

/-- KDC101.SetJogParameters (0x0416, data): channel mask, reserved byte,
mode, step counts, minVelocity, acceleration, maxVelocity counts, stop
mode. -/
def SetJogParameters (k : KDC101) (channel : Nat) (params : JogParameters)
    (c : Unicomm) : Outcome Unit × Unicomm :=
  if channel ≠ 1 then (Outcome.err Err.channelNotSupported, c)
  else
    let stepSize := k.PositionToCounts params.stepSize
    let minVel := k.VelocityToCounts params.minVelocity
    let accel := k.AccelerationToCounts params.acceleration
    let maxVel := k.VelocityToCounts params.maxVelocity
    let data := [chmask channel, 0x00] ++ WordToBytes params.mode ++
      LongToBytes stepSize ++ DwordToBytes minVel ++ DwordToBytes accel ++
      DwordToBytes maxVel ++ WordToBytes params.stopMode
    WriteData
      { id := 0x0416, dataLength := data.length % 65536,
        destination := GenericUnit, source := Host, data := data } c

/-- KDC101.GetJogParameters (0x0417): replies shorter than 22 bytes fail;
fields are decoded at fixed offsets. -/
def GetJogParameters (k : KDC101) (channel : Nat) (c : Unicomm) :
    Outcome JogParameters × Unicomm :=
  if channel ≠ 1 then (Outcome.err Err.channelNotSupported, c)
  else
    Outcome.bind
      (RequestData
        { id := 0x0417, parameter1 := chmask channel, parameter2 := 0,
          destination := GenericUnit, source := Host } c)
      fun response c1 =>
        let data := response.data
        if data.length < 22 then
          (Outcome.err Err.invalidResponseLength, c1)
        else
          match goSlice data 2 4, goSlice data 4 8, goSlice data 8 12,
              goSlice data 12 16, goSlice data 16 20, goSlice data 20 22 with
          | some sMode, some sStep, some sMin, some sAcc, some sMax,
            some sStop =>
              (Outcome.ok
                { mode := BytesToWord sMode,
                  stepSize := k.CountsToPosition (BytesToLong sStep),
                  minVelocity := k.CountsToVelocity (BytesToDword sMin),
                  acceleration := k.CountsToAcceleration (BytesToLong sAcc),
                  maxVelocity := k.CountsToVelocity (BytesToDword sMax),
                  stopMode := BytesToWord sStop }, c1)
          | _, _, _, _, _, _ => (Outcome.crash, c1)

/-- KDC101.SetRelativeMoveDistance (0x0445, data). -/
def SetRelativeMoveDistance (k : KDC101) (channel : Nat) (distance : ℚ)
    (c : Unicomm) : Outcome Unit × Unicomm :=
  if channel ≠ 1 then (Outcome.err Err.channelNotSupported, c)
  else
    let counts := k.PositionToCounts distance
    let data := [chmask channel, 0x00] ++ LongToBytes counts
    WriteData
      { id := 0x0445, dataLength := data.length % 65536,
        destination := GenericUnit, source := Host, data := data } c

/-- KDC101.GetRelativeMoveDistance (0x0446): replies shorter than 6 bytes
fail; the counts sit at offsets 2..6. -/
def GetRelativeMoveDistance (k : KDC101) (channel : Nat) (c : Unicomm) :
    Outcome ℚ × Unicomm :=
  if channel ≠ 1 then (Outcome.err Err.channelNotSupported, c)
  else
    Outcome.bind
      (RequestData
        { id := 0x0446, parameter1 := chmask channel, parameter2 := 0,
          destination := GenericUnit, source := Host } c)
      fun response c1 =>
        let data := response.data
        if data.length < 6 then (Outcome.err Err.invalidResponseLength, c1)
        else
          match goSlice data 2 6 with
          | some s => (Outcome.ok (k.CountsToPosition (BytesToLong s)), c1)
          | none => (Outcome.crash, c1)

/-- KDC101.SetAbsoluteMoveDistance (0x0450, data). -/
def SetAbsoluteMoveDistance (k : KDC101) (channel : Nat) (position : ℚ)
    (c : Unicomm) : Outcome Unit × Unicomm :=
  if channel ≠ 1 then (Outcome.err Err.channelNotSupported, c)
  else
    let counts := k.PositionToCounts position
    let data := [chmask channel, 0x00] ++ LongToBytes counts
    WriteData
      { id := 0x0450, dataLength := data.length % 65536,
        destination := GenericUnit, source := Host, data := data } c

/-- KDC101.GetAbsoluteMoveDistance (0x0451): replies shorter than 6 bytes
fail; the counts sit at offsets 2..6. -/
def GetAbsoluteMoveDistance (k : KDC101) (channel : Nat) (c : Unicomm) :
    Outcome ℚ × Unicomm :=
  if channel ≠ 1 then (Outcome.err Err.channelNotSupported, c)
  else
    Outcome.bind
      (RequestData
        { id := 0x0451, parameter1 := chmask channel, parameter2 := 0,
          destination := GenericUnit, source := Host } c)
      fun response c1 =>
        let data := response.data
        if data.length < 6 then (Outcome.err Err.invalidResponseLength, c1)
        else
          match goSlice data 2 6 with
          | some s => (Outcome.ok (k.CountsToPosition (BytesToLong s)), c1)
          | none => (Outcome.crash, c1)

-- ===== DC status =====

/-- protocol.DCStatusUpdate: the raw reply fields. -/
structure DCStatusUpdate where
  channel : Nat
  position : Int
  velocity : Nat
  current : Int
  statusBits : Nat
deriving Repr, DecidableEq

/-- protocol.DCStatusBits: the named status flags. -/
structure DCStatusBits where
  CWHardLimit : Bool
  CCWHardLimit : Bool
  CWSoftLimit : Bool
  CCWSoftLimit : Bool
  InMotionCW : Bool
  InMotionCCW : Bool
  JoggingCW : Bool
  JoggingCCW : Bool
  IsConnected : Bool
  IsHoming : Bool
  IsHomed : Bool
  IsInitializing : Bool
  IsTracking : Bool
  IsSettled : Bool
  PositionError : Bool
  InstructionError : Bool
  Interlock : Bool
  OverTemperature : Bool
  BusVoltageFault : Bool
  CommutationError : Bool
  Overload : Bool
  EncoderFault : Bool
  OverCurrent : Bool
  BusCurrentFault : Bool
  PowerOk : Bool
  IsActive : Bool
  Error : Bool
  IsEnabled : Bool
deriving Repr, DecidableEq

/-- protocol.DCStatusUpdateSI: the converted status update. -/
structure DCStatusUpdateSI where
  channel : Nat
  position : ℚ
  velocity : ℚ
  current : ℚ
  statusBits : DCStatusBits
deriving Repr, DecidableEq

/-- KDC101.GetDCStatusUpdate (0x0490): request a status update and decode
the reply payload at fixed offsets `[0:2] [2:6] [6:8] [8:10] [10:14]`.
The source performs no length check before slicing. -/
def GetDCStatusUpdate (k : KDC101) (channel : Nat) (c : Unicomm) :
    Outcome DCStatusUpdate × Unicomm :=
  if channel ≠ 1 then (Outcome.err Err.channelNotSupported, c)
  else
    Outcome.bind
      (RequestData
        { id := 0x0490, parameter1 := chmask channel, parameter2 := 0x00,
          destination := GenericUnit, source := Host } c)
      fun response c1 =>
        let data := response.data
        match goSlice data 0 2, goSlice data 2 6, goSlice data 6 8,
            goSlice data 8 10, goSlice data 10 14 with
        | some s1, some s2, some s3, some s4, some s5 =>
            (Outcome.ok
              { channel := BytesToWord s1,
                position := BytesToLong s2,
                velocity := BytesToWord s3,
                current := BytesToShort s4,
                statusBits := BytesToDword s5 }, c1)
        | _, _, _, _, _ => (Outcome.crash, c1)

/-- KDC101.ParseDCStatusBits: each flag is `(statusBits & mask) != 0` for
its fixed mask; bits 20–23 feed no flag. -/
def ParseDCStatusBits (k : KDC101) (statusBits : Nat) : DCStatusBits :=
  { CWHardLimit := statusBits &&& 0x00000001 != 0,
    CCWHardLimit := statusBits &&& 0x00000002 != 0,
    CWSoftLimit := statusBits &&& 0x00000004 != 0,
    CCWSoftLimit := statusBits &&& 0x00000008 != 0,
    InMotionCW := statusBits &&& 0x00000010 != 0,
    InMotionCCW := statusBits &&& 0x00000020 != 0,
    JoggingCW := statusBits &&& 0x00000040 != 0,
    JoggingCCW := statusBits &&& 0x00000080 != 0,
    IsConnected := statusBits &&& 0x00000100 != 0,
    IsHoming := statusBits &&& 0x00000200 != 0,
    IsHomed := statusBits &&& 0x00000400 != 0,
    IsInitializing := statusBits &&& 0x00000800 != 0,
    IsTracking := statusBits &&& 0x00001000 != 0,
    IsSettled := statusBits &&& 0x00002000 != 0,
    PositionError := statusBits &&& 0x00004000 != 0,
    InstructionError := statusBits &&& 0x00008000 != 0,
    Interlock := statusBits &&& 0x00010000 != 0,
    OverTemperature := statusBits &&& 0x00020000 != 0,
    BusVoltageFault := statusBits &&& 0x00040000 != 0,
    CommutationError := statusBits &&& 0x00080000 != 0,
    Overload := statusBits &&& 0x01000000 != 0,
    EncoderFault := statusBits &&& 0x02000000 != 0,
    OverCurrent := statusBits &&& 0x04000000 != 0,
    BusCurrentFault := statusBits &&& 0x08000000 != 0,
    PowerOk := statusBits &&& 0x10000000 != 0,
    IsActive := statusBits &&& 0x20000000 != 0,
    Error := statusBits &&& 0x40000000 != 0,
    IsEnabled := statusBits &&& 0x80000000 != 0 }

/-- KDC101.DCStatusUpdateToSI: convert position and velocity to physical
units, pass current through, expand the status bits. -/
def DCStatusUpdateToSI (k : KDC101) (update : DCStatusUpdate) :
    DCStatusUpdateSI :=
  { channel := update.channel,
    position := k.CountsToPosition update.position,
    velocity := k.CountsToVelocity update.velocity,
    current := (update.current : ℚ),
    statusBits := ParseDCStatusBits k update.statusBits }

-- ===== the single-channel guard, packaged =====

/-- Channel validation behaviour shared by every channelled operation: the
operation returns the channel-not-supported error and leaves the transport
untouched (no write, no read). -/
def DeniedWithoutIO (k : KDC101) (c : Unicomm) (channel : Nat) : Prop :=
  Identify k channel c = (Outcome.err Err.channelNotSupported, c) ∧
  (∀ en : Bool, Enable k channel en c = (Outcome.err Err.channelNotSupported, c)) ∧
  IsEnabled k channel c = (Outcome.err Err.channelNotSupported, c) ∧
  StartHomeMove k channel c = (Outcome.err Err.channelNotSupported, c) ∧
  StartRelativeMove k channel c = (Outcome.err Err.channelNotSupported, c) ∧
  (∀ d : ℚ, MoveRelativeDistance k channel d c = (Outcome.err Err.channelNotSupported, c)) ∧
  StartAbsoluteMove k channel c = (Outcome.err Err.channelNotSupported, c) ∧
  (∀ p : ℚ, MoveAbsolutePosition k channel p c = (Outcome.err Err.channelNotSupported, c)) ∧
  (∀ dir : Nat, StartJogMove k channel dir c = (Outcome.err Err.channelNotSupported, c)) ∧
  (∀ dir : Nat, MoveContinuous k channel dir c = (Outcome.err Err.channelNotSupported, c)) ∧
  (∀ mode : Nat, Stop k channel mode c = (Outcome.err Err.channelNotSupported, c)) ∧
  (∀ profile : VelocityProfile, SetTrapezoidalVelocity k channel profile c = (Outcome.err Err.channelNotSupported, c)) ∧
  GetTrapezoidalVelocity k channel c = (Outcome.err Err.channelNotSupported, c) ∧
  (∀ params : JogParameters, SetJogParameters k channel params c = (Outcome.err Err.channelNotSupported, c)) ∧
  GetJogParameters k channel c = (Outcome.err Err.channelNotSupported, c) ∧
  (∀ d : ℚ, SetRelativeMoveDistance k channel d c = (Outcome.err Err.channelNotSupported, c)) ∧
  GetRelativeMoveDistance k channel c = (Outcome.err Err.channelNotSupported, c) ∧
  (∀ p : ℚ, SetAbsoluteMoveDistance k channel p c = (Outcome.err Err.channelNotSupported, c)) ∧
  GetAbsoluteMoveDistance k channel c = (Outcome.err Err.channelNotSupported, c) ∧
  GetDCStatusUpdate k channel c = (Outcome.err Err.channelNotSupported, c)

-- ===== general-purpose lemmas =====

/-- Disjoint bitwise or on `Nat` is addition. -/
theorem or_disjoint_add (a : Nat) : ∀ b, a &&& b = 0 → a ||| b = a + b := by
  induction a using Nat.binaryRec with
  | z => simp
  | f ba na ih =>
    intro b h
    cases b using Nat.binaryRec with
    | z => simp
    | f bb nb =>
      rw [Nat.land_bit, Nat.bit_eq_zero_iff] at h
      obtain ⟨h1, h2⟩ := h
      rw [Nat.lor_bit, ih nb h1]
      cases ba <;> cases bb <;> simp_all [Nat.bit] <;> omega

/-- A value shifted left by `p` bits shares no bits with a value below
`2 ^ p`. -/
theorem and_shiftLeft_eq_zero (p a b : Nat) (h : b < 2 ^ p) :
    (a <<< p) &&& b = 0 := by
  apply Nat.eq_of_testBit_eq
  intro k
  simp only [Nat.testBit_land, Nat.zero_testBit, Nat.testBit_shiftLeft]
  rcases Nat.lt_or_ge k p with hk | hk
  · simp [Nat.not_le.mpr hk]
  · have hb : b.testBit k = false :=
      Nat.testBit_lt_two_pow (lt_of_lt_of_le h (Nat.pow_le_pow_right (by norm_num) hk))
    simp [hb]

/-- Recombining a shifted high part with a low part below `2 ^ p` is plain
positional arithmetic. -/
theorem shiftLeft_or_eq_add (p a b : Nat) (h : b < 2 ^ p) :
    (a <<< p) ||| b = a * 2 ^ p + b := by
  rw [or_disjoint_add _ _ (and_shiftLeft_eq_zero p a b h), Nat.shiftLeft_eq]

/-- Splitting a value into its high byte and low byte and recombining them
little-endian style gives the value back. -/
theorem recombine16 (n : Nat) : ((n >>> 8) <<< 8) ||| (n &&& 255) = n := by
  have hm : n &&& 255 = n % 256 := by
    have h255 : (255 : Nat) = 2 ^ 8 - 1 := by norm_num
    rw [h255, Nat.and_pow_two_sub_one_eq_mod]
  rw [shiftLeft_or_eq_add 8 _ _ (by rw [hm]; exact Nat.mod_lt _ (by norm_num))]
  rw [hm, Nat.shiftRight_eq_div_pow]
  have := Nat.div_add_mod n 256
  omega

/-- Setting the `0x80` bit changes every byte value below `0x80`. -/
theorem or128_ne (d : Nat) (h : d < 128) : d ||| 128 ≠ d := by
  have hd : d &&& 128 = 0 := by
    have h128 : (128 : Nat) = 2 ^ 7 := by norm_num
    rw [h128, Nat.and_two_pow]
    have ht : d.testBit 7 = false := Nat.testBit_lt_two_pow (by norm_num; omega)
    simp [ht]
  rw [Nat.lor_comm, or_disjoint_add 128 d (by rwa [Nat.land_comm])]
  omega

/-- Serializing a 32-bit value into four little-endian bytes and reading
them back is the identity. -/
theorem bytesToDword_dwordToBytes (n : Nat) (h : n < 2 ^ 32) :
    BytesToDword (DwordToBytes n) = n := by
  rw [DwordToBytes, BytesToDword]
  simp only [List.getD, List.get?, Option.getD_some]
  rw [Nat.lor_comm (n % 256) ((n >>> 8 % 256) <<< 8)]
  rw [shiftLeft_or_eq_add 8 (n >>> 8 % 256) (n % 256) (by omega)]
  rw [Nat.lor_comm (n >>> 8 % 256 * 2 ^ 8 + n % 256) ((n >>> 16 % 256) <<< 16)]
  rw [shiftLeft_or_eq_add 16 (n >>> 16 % 256)
    (n >>> 8 % 256 * 2 ^ 8 + n % 256) (by omega)]
  rw [Nat.lor_comm
    (n >>> 16 % 256 * 2 ^ 16 + (n >>> 8 % 256 * 2 ^ 8 + n % 256))
    ((n >>> 24 % 256) <<< 24)]
  rw [shiftLeft_or_eq_add 24 (n >>> 24 % 256)
    (n >>> 16 % 256 * 2 ^ 16 + (n >>> 8 % 256 * 2 ^ 8 + n % 256)) (by omega)]
  simp only [Nat.shiftRight_eq_div_pow]
  omega

/-- `ftrunc` agrees with the floor on nonnegative rationals. -/
theorem ftrunc_eq_floor (q : ℚ) (h : 0 ≤ q) : ftrunc q = ⌊q⌋ := by
  rw [ftrunc, Int.tdiv_eq_ediv (Rat.num_nonneg.mpr h) (by positivity), Rat.floor_def]

/-- Evaluation rule for `ftrunc` on a nonnegative rational bracketed by
consecutive integers. -/
theorem ftrunc_eq_of (q : ℚ) (n : Int) (h0 : 0 ≤ n) (h1 : (n : ℚ) ≤ q)
    (h2 : q < n + 1) : ftrunc q = n := by
  rw [ftrunc_eq_floor q (le_trans (by exact_mod_cast h0) h1)]
  exact Int.floor_eq_iff.mpr ⟨h1, h2⟩

/-- A positive truncation comes from a positive rational. -/
theorem pos_of_ftrunc_pos (q : ℚ) (h : 0 < ftrunc q) : 0 < q := by
  by_contra hq
  push_neg at hq
  have hnum : q.num ≤ 0 := Rat.num_nonpos.mpr hq
  have : ftrunc q ≤ 0 := by
    rw [ftrunc]
    have hneg : 0 ≤ -q.num := by omega
    have := Int.tdiv_nonneg hneg (show (0 : Int) ≤ (q.den : Int) by positivity)
    rw [Int.neg_tdiv] at this
    omega
  omega

/-- Every value in the motor table is nonnegative, hence so is every map
read. -/
theorem motorTFactor_nonneg (m : String) : 0 ≤ MotorTFactor m := by
  rw [MotorTFactor, MotorTFactorTable]
  simp only [List.lookup]
  repeat' split
  all_goals norm_num [Option.getD]

/-- Every value in the stage table is nonnegative, hence so is every map
read. -/
theorem stageScalingFactor_nonneg (s : String) : 0 ≤ StageScalingFactor s := by
  rw [StageScalingFactor, StageScalingFactorTable]
  simp only [List.lookup]
  repeat' split
  all_goals norm_num [Option.getD]

-- ===== claim C3 =====

/-- C3, counterexample: on the MTS25-Z8 / Brushed calibration,
`PositionToCounts(10.0)` is not the claimed rounded value 345550 — the Go
`int32(...)` conversion truncates toward zero and `10.0 × 34554.96 =
345549.6` truncates to 345549. -/
theorem C3_counterexample :
    KDC101.PositionToCounts (New "MTS25-Z8" "Brushed") 10 ≠ 345550 := by
  have hs : StageScalingFactor "MTS25-Z8" = 34554.96 := by
    rw [StageScalingFactor, StageScalingFactorTable]
    simp [List.lookup]
  rw [KDC101.PositionToCounts, New, hs]
  rw [ftrunc_eq_of (10 * (34554.96 : ℚ)) 345549 (by norm_num) (by norm_num)
    (by norm_num)]
  decide

/-- C3, amended: for the MTS25-Z8 / Brushed controller the conversion is
performed exactly as `ftrunc(10.0 × 34554.96)` — truncation toward zero of
the stated product, with no clamping — and yields 345549. -/
theorem C3_theorem :
    KDC101.PositionToCounts (New "MTS25-Z8" "Brushed") 10 =
      ftrunc (10 * 34554.96) ∧
    KDC101.PositionToCounts (New "MTS25-Z8" "Brushed") 10 = 345549 := by
  have hs : StageScalingFactor "MTS25-Z8" = 34554.96 := by
    rw [StageScalingFactor, StageScalingFactorTable]
    simp [List.lookup]
  have hv : ftrunc (10 * (34554.96 : ℚ)) = 345549 :=
    ftrunc_eq_of _ _ (by norm_num) (by norm_num) (by norm_num)
  constructor
  · rw [KDC101.PositionToCounts, New, hs]
  · rw [KDC101.PositionToCounts, New, hs, hv]

-- ===== claim C4 =====

/-- C4, counterexample: the claimed status-word scenario is wrong about the
flags — `0x80000401` has bit 8 (`IsConnected`, mask 0x100) clear and bit 0
(`CWHardLimit`, mask 0x1) set, so decoding the stated reply yields
`IsConnected = false`, contradicting the claimed `IsConnected = true`. -/
theorem C4_counterexample :
    (GetDCStatusUpdate (New "MTS25-Z8" "Brushed") 1
      ⟨[[0x90, 0x04, 0x0E, 0x00, 0xD0, 0x01],
        [0x01, 0x00, 0x2E, 0x4F, 0x05, 0x00, 0x32, 0x00, 0xF6, 0xFF,
         0x01, 0x04, 0x00, 0x80]], [], 0⟩).1 =
      Outcome.ok ⟨0x0001, 0x00054F2E, 0x0032, -10, 0x80000401⟩ ∧
    (ParseDCStatusBits (New "MTS25-Z8" "Brushed") 0x80000401).IsConnected =
      false := by
  constructor
  · decide
  · decide

/-- C4, amended: decoding a get-DC-status reply with raw fields
`channel=0x0001, position=0x00054F2E, velocity=0x0032, current=0xFFF6,
statusBits=0x80000401` yields `CWHardLimit = true`, `IsHomed = true`,
`IsEnabled = true`, and every other named flag `false`. -/
theorem C4_theorem :
    (GetDCStatusUpdate (New "MTS25-Z8" "Brushed") 1
      ⟨[[0x90, 0x04, 0x0E, 0x00, 0xD0, 0x01],
        [0x01, 0x00, 0x2E, 0x4F, 0x05, 0x00, 0x32, 0x00, 0xF6, 0xFF,
         0x01, 0x04, 0x00, 0x80]], [], 0⟩).1 =
      Outcome.ok ⟨0x0001, 0x00054F2E, 0x0032, -10, 0x80000401⟩ ∧
    ParseDCStatusBits (New "MTS25-Z8" "Brushed") 0x80000401 =
      ⟨true, false, false, false, false, false, false, false,
       false, false, true, false, false, false, false, false,
       false, false, false, false, false, false, false, false,
       false, false, false, true⟩ := by
  constructor
  · decide
  · decide

-- ===== claim C5 =====

/-- C5, counterexample: constructing a controller with a stage type absent
from the calibration table does not fail — `New` performs no lookup and no
validation, the controller is built with the unsupported key stored, and a
later conversion silently uses the Go map zero value `0.0` (so the counts
come out 0) instead of an `UnsupportedStageOrMotor` error, which does not
exist anywhere in the code. -/
theorem C5_counterexample :
    New "MTS99-XX" "Brushed" = ⟨"MTS99-XX", "Brushed"⟩ ∧
    StageScalingFactorTable.lookup "MTS99-XX" = none ∧
    StageScalingFactor "MTS99-XX" = 0 ∧
    KDC101.PositionToCounts (New "MTS99-XX" "Brushed") 10 = 0 := by
  refine ⟨rfl, by rw [StageScalingFactorTable]; simp [List.lookup], ?_, ?_⟩
  · rw [StageScalingFactor, StageScalingFactorTable]
    simp [List.lookup]
  · have hs : StageScalingFactor "MTS99-XX" = 0 := by
      rw [StageScalingFactor, StageScalingFactorTable]
      simp [List.lookup]
    rw [KDC101.PositionToCounts, New, hs]
    norm_num [ftrunc]

/-- C5, amended: construction always succeeds — `New` builds the record for
every stage/motor pair — and for each of the 8 supported stage types and 2
supported motor types the table lookups yield the datasheet constants
exactly; an absent key instead surfaces as scaling factor 0 in later
conversions. -/
theorem C5_theorem :
    (∀ s m : String, New s m = ⟨s, m⟩) ∧
    StageScalingFactor "MTS25-Z8" = 34554.96 ∧
    StageScalingFactor "MTS50-Z8" = 34554.96 ∧
    StageScalingFactor "Z8xx" = 34554.96 ∧
    StageScalingFactor "Z6xx" = 24600 ∧
    StageScalingFactor "PRM1-Z8" = 1919.6418578623391 ∧
    StageScalingFactor "PRMTZ8" = 1919.6418578623391 ∧
    StageScalingFactor "CR1-Z7" = 12288 ∧
    StageScalingFactor "KVS30" = 20000 ∧
    MotorTFactor "Brushed" = 2048 / 6000000 ∧
    MotorTFactor "Brushless" = 2048 / 6000000 := by
  refine ⟨fun s m => rfl, ?_, ?_, ?_, ?_, ?_, ?_, ?_, ?_, ?_, ?_⟩ <;>
    first
      | (rw [StageScalingFactor, StageScalingFactorTable]; simp [List.lookup])
      | (rw [MotorTFactor, MotorTFactorTable]; simp [List.lookup])

-- ===== claim C7 =====

/-- C7: the status decoder is total by construction; on `0xFFFFFFFF` every
defined flag is `true`, on `0x00000000` every flag is `false`, and flipping
any combination of the reserved bits 20–23 (mask 0xF00000) never changes
any named flag. -/
theorem C7_theorem :
    (∀ k : KDC101, ParseDCStatusBits k 0xFFFFFFFF =
      ⟨true, true, true, true, true, true, true, true,
       true, true, true, true, true, true, true, true,
       true, true, true, true, true, true, true, true,
       true, true, true, true⟩) ∧
    (∀ k : KDC101, ParseDCStatusBits k 0x00000000 =
      ⟨false, false, false, false, false, false, false, false,
       false, false, false, false, false, false, false, false,
       false, false, false, false, false, false, false, false,
       false, false, false, false⟩) ∧
    (∀ (k : KDC101) (x r : Nat), r &&& 0xF00000 = r →
      ParseDCStatusBits k (x ^^^ r) = ParseDCStatusBits k x) := by
  refine ⟨fun k => rfl, fun k => rfl, fun k x r hr => ?_⟩
  have key : ∀ m : Nat, 0xF00000 &&& m = 0 → (x ^^^ r) &&& m = x &&& m := by
    intro m hm
    rw [Nat.and_xor_distrib_right]
    have hrm : r &&& m = 0 := by
      conv_lhs => rw [← hr]
      rw [Nat.land_assoc, hm]
      simp
    rw [hrm]
    simp
  rw [ParseDCStatusBits, ParseDCStatusBits]
  simp only [DCStatusBits.mk.injEq]
  refine ⟨?_, ?_, ?_, ?_, ?_, ?_, ?_, ?_, ?_, ?_, ?_, ?_, ?_, ?_, ?_, ?_,
          ?_, ?_, ?_, ?_, ?_, ?_, ?_, ?_, ?_, ?_, ?_, ?_⟩ <;>
    rw [key _ (by decide)]

/-- C7, witness: the reserved-bit clause at `x = 0x12345678`,
`r = 0x00300000`. -/
theorem C7_witness :
    (0x00300000 &&& 0xF00000 = 0x00300000) ∧
    ParseDCStatusBits (New "MTS25-Z8" "Brushed") (0x12345678 ^^^ 0x00300000) =
      ParseDCStatusBits (New "MTS25-Z8" "Brushed") 0x12345678 :=
  ⟨by decide,
   C7_theorem.2.2 (New "MTS25-Z8" "Brushed") 0x12345678 0x00300000 (by decide)⟩

-- ===== claim C6 =====

/-- C6: when the six-byte header of a data reply declares payload length 0
(a `Nat` length below 1 is exactly 0), `ReadData` fails with the
invalid-data-length error before any second transport read: exactly one
read happens and the remaining read script is untouched. -/
theorem C6_theorem (b0 b1 b4 b5 : Nat) (rest : List (List Nat))
    (w : List (List Nat)) (n : Nat) :
    ReadData ⟨[b0, b1, 0, 0, b4, b5] :: rest, w, n⟩ =
      (Outcome.err (Err.invalidDataLength 0), ⟨rest, w, n + 1⟩) := by
  simp [ReadData, Unicomm.read, idx]

-- ===== claim C1 =====

/-- C1, counterexample: encoding the data message
`{id 0x0453, length 1, destination 0x50, source 0x01, payload [0xAB]}` and
decoding the produced bytes does not give the message back — the decoder
leaves the `0x80` bit set in the destination (0xD0), because `ReadData`
stores the destination byte unmasked. -/
theorem C1_counterexample :
    (ReadData ⟨[((WriteData ⟨0x0453, 1, 0x50, 0x01, [0xAB]⟩
        ⟨[], [], 0⟩).2.writes.getD 0 []).take 6,
      ((WriteData ⟨0x0453, 1, 0x50, 0x01, [0xAB]⟩
        ⟨[], [], 0⟩).2.writes.getD 0 []).drop 6], [], 0⟩).1 ≠
      Outcome.ok ⟨0x0453, 1, 0x50, 0x01, [0xAB]⟩ := by
  decide

/-- C1, amended: for every data message with a consistent length field,
payload length at least 1 and destination below 0x80, encoding with
`WriteData` and decoding the same bytes with `ReadData` recovers the
commandId, the payload length, the source and the payload verbatim, but
the destination comes back with the 0x80 bit still set — it equals
`destination ||| 0x80`, which differs from the original destination. -/
theorem C1_theorem (m : DataMessage) (hid : m.id < 65536)
    (hlen1 : 1 ≤ m.dataLength) (hlen2 : m.dataLength < 65536)
    (hdata : m.data.length = m.dataLength) (hdest : m.destination < 0x80) :
    (ReadData ⟨[((WriteData m ⟨[], [], 0⟩).2.writes.getD 0 []).take 6,
      ((WriteData m ⟨[], [], 0⟩).2.writes.getD 0 []).drop 6], [], 0⟩).1 =
      Outcome.ok { m with destination := m.destination ||| 0x80 } ∧
    m.destination ||| 0x80 ≠ m.destination := by
  obtain ⟨id, dataLength, destination, source, data⟩ := m
  dsimp only at hid hlen1 hlen2 hdata hdest
  refine ⟨?_, or128_ne destination hdest⟩
  have hmask : ∀ v : Nat, v &&& 0x00FF = v &&& 255 := fun v => rfl
  simp only [WriteData, Unicomm.write, List.nil_append, List.getD,
    List.get?, Option.getD_some, List.cons_append, List.take_succ_cons,
    List.take_zero, List.drop_succ_cons, List.drop_zero]
  simp only [ReadData, Unicomm.read, List.length_cons, List.length_nil, idx,
    List.getD, List.get?, Option.getD_some]
  norm_num
  rw [hmask, hmask, recombine16 id, recombine16 dataLength]
  have hlt : ¬ dataLength = 0 := by omega
  simp [hlt, hdata]

/-- C1, witness: the amended round trip at the concrete message
`{id 0x0453, length 1, destination 0x50, source 0x01, payload [0xAB]}`. -/
theorem C1_witness :
    (0x0453 : Nat) < 65536 ∧ (1 : Nat) ≤ 1 ∧ (1 : Nat) < 65536 ∧
    [(0xAB : Nat)].length = 1 ∧ (0x50 : Nat) < 0x80 ∧
    ((ReadData ⟨[((WriteData ⟨0x0453, 1, 0x50, 0x01, [0xAB]⟩
        ⟨[], [], 0⟩).2.writes.getD 0 []).take 6,
      ((WriteData ⟨0x0453, 1, 0x50, 0x01, [0xAB]⟩
        ⟨[], [], 0⟩).2.writes.getD 0 []).drop 6], [], 0⟩).1 =
      Outcome.ok { (⟨0x0453, 1, 0x50, 0x01, [0xAB]⟩ : DataMessage) with
        destination := 0x50 ||| 0x80 } ∧
      (0x50 : Nat) ||| 0x80 ≠ 0x50) :=
  ⟨by decide, by decide, by decide, by decide, by decide,
   C1_theorem ⟨0x0453, 1, 0x50, 0x01, [0xAB]⟩ (by decide) (by decide)
     (by decide) (by decide) (by decide)⟩

-- ===== claim C2 =====

/-- C2: for every channel value other than 1, every public channelled
operation of the controller returns the channel-not-supported error and
performs no transport write and no transport read. -/
theorem C2_theorem (k : KDC101) (c : Unicomm) (channel : Nat)
    (h : channel ≠ 1) : DeniedWithoutIO k c channel := by
  refine ⟨?_, fun en => ?_, ?_, ?_, ?_, fun d => ?_, ?_, fun p => ?_,
    fun dir => ?_, fun dir => ?_, fun mode => ?_, fun profile => ?_, ?_,
    fun params => ?_, ?_, fun d => ?_, ?_, fun p => ?_, ?_, ?_⟩ <;>
  simp [Identify, Enable, IsEnabled, StartHomeMove, StartRelativeMove,
    MoveRelativeDistance, StartAbsoluteMove, MoveAbsolutePosition,
    StartJogMove, MoveContinuous, Stop, SetTrapezoidalVelocity,
    GetTrapezoidalVelocity, SetJogParameters, GetJogParameters,
    SetRelativeMoveDistance, GetRelativeMoveDistance,
    SetAbsoluteMoveDistance, GetAbsoluteMoveDistance, GetDCStatusUpdate, h]

/-- C2, witness: channel 2 on the MTS25-Z8 / Brushed controller with an
empty transport. -/
theorem C2_witness :
    (2 : Nat) ≠ 1 ∧
    DeniedWithoutIO (New "MTS25-Z8" "Brushed") ⟨[], [], 0⟩ 2 :=
  ⟨by decide, C2_theorem (New "MTS25-Z8" "Brushed") ⟨[], [], 0⟩ 2 (by decide)⟩

-- ===== claim C8 =====

/-- C8: `MoveAbsolutePosition(channel 1, position 10.0)` on the MTS25-Z8 /
Brushed calibration performs exactly one transport write, of the single
data frame with commandId 0x0453 (bytes `53 04`), payload length field 6
(bytes `06 00`), destination byte `0x50 ||| 0x80 = 0xD0`, source byte 0x01,
and payload `[0x01, 0x00]` followed by the position counts as four
little-endian bytes — concretely `[0xCD, 0x45, 0x05, 0x00]` for counts
345549. -/
theorem C8_theorem (c : Unicomm) :
    MoveAbsolutePosition (New "MTS25-Z8" "Brushed") 1 10 c =
      (Outcome.ok (), ⟨c.reads,
        c.writes ++ [[0x53, 0x04, 0x06, 0x00, 0xD0, 0x01, 0x01, 0x00] ++
          LongToBytes (KDC101.PositionToCounts (New "MTS25-Z8" "Brushed") 10)],
        c.readCount⟩) ∧
    LongToBytes (KDC101.PositionToCounts (New "MTS25-Z8" "Brushed") 10) =
      [0xCD, 0x45, 0x05, 0x00] := by
  have hcounts : KDC101.PositionToCounts (New "MTS25-Z8" "Brushed") 10 =
      345549 := by
    have hs : StageScalingFactor "MTS25-Z8" = 34554.96 := by
      rw [StageScalingFactor, StageScalingFactorTable]
      simp [List.lookup]
    rw [KDC101.PositionToCounts, New, hs]
    exact ftrunc_eq_of _ _ (by norm_num) (by norm_num) (by norm_num)
  constructor
  · simp only [MoveAbsolutePosition, WriteData, Unicomm.write, chmask]
    norm_num
    rw [hcounts]
    constructor
    · decide
    · decide
  · rw [hcounts]
    decide

-- ===== claim C9 =====

/-- C9: `GetDCStatusUpdate` slices the reply payload at fixed offsets up to
`[10:14]` with no length check, so for every declared payload length
between 1 and 13 the decode is an out-of-range slice — a runtime panic, not
any error return (there is no too-short branch).  Exactly the two reads of
the transaction happen and only the request write. -/
theorem C9_theorem (d : Nat) (h1 : 1 ≤ d) (h2 : d ≤ 13) :
    GetDCStatusUpdate (New "MTS25-Z8" "Brushed") 1
      ⟨[[0x90, 0x04, d, 0x00, 0xD0, 0x01], List.replicate d 0], [], 0⟩ =
      (Outcome.crash, ⟨[], [[0x90, 0x04, 0x01, 0x00, 0x50, 0x01]], 2⟩) := by
  interval_cases d <;> decide

/-- C9, witness: a status reply declaring 5 payload bytes panics. -/
theorem C9_witness :
    (1 : Nat) ≤ 5 ∧ (5 : Nat) ≤ 13 ∧
    GetDCStatusUpdate (New "MTS25-Z8" "Brushed") 1
      ⟨[[0x90, 0x04, 5, 0x00, 0xD0, 0x01], List.replicate 5 0], [], 0⟩ =
      (Outcome.crash, ⟨[], [[0x90, 0x04, 0x01, 0x00, 0x50, 0x01]], 2⟩) :=
  ⟨by decide, by decide, C9_theorem 5 (by decide) (by decide)⟩

-- ===== claim C10 =====

/-- The signedness asymmetry of the trapezoidal-velocity round trip, for
one controller, profile and starting transport state: the setter writes the
acceleration counts as an unsigned 32-bit field, and a getter that reads
back exactly the payload the setter produced returns the acceleration
reinterpreted as a signed 32-bit count — a negative physical value distinct
from the one that was set. -/
def TrapAccelSignFlaw (k : KDC101) (profile : VelocityProfile)
    (c : Unicomm) : Prop :=
  (SetTrapezoidalVelocity k 1 profile c).2.writes = c.writes ++
    [[0x13, 0x04, 0x0E, 0x00, 0xD0, 0x01] ++
     ([0x01, 0x00] ++ DwordToBytes (k.VelocityToCounts profile.minVelocity) ++
      DwordToBytes (k.AccelerationToCounts profile.acceleration) ++
      DwordToBytes (k.VelocityToCounts profile.maxVelocity))] ∧
  ∃ p : VelocityProfile,
    GetTrapezoidalVelocity k 1
      ⟨[[0x14, 0x04, 0x0E, 0x00, 0xD0, 0x01],
        [0x01, 0x00] ++ DwordToBytes (k.VelocityToCounts profile.minVelocity) ++
        DwordToBytes (k.AccelerationToCounts profile.acceleration) ++
        DwordToBytes (k.VelocityToCounts profile.maxVelocity)], [], 0⟩ =
      (Outcome.ok p, ⟨[], [[0x14, 0x04, 0x01, 0x00, 0x50, 0x01]], 2⟩) ∧
    p.acceleration = k.CountsToAcceleration
      ((k.AccelerationToCounts profile.acceleration : Int) - 2 ^ 32) ∧
    p.acceleration < 0 ∧
    p.acceleration ≠ profile.acceleration

/-- C10: whenever the acceleration count value reaches `2^31` (while still
within the 32-bit range the Go conversion is defined on), the
set-then-get trapezoidal-velocity round trip comes back negative:
`SetTrapezoidalVelocity` encodes the count unsigned (`AccelerationToCounts`
returns a `uint32`), but `GetTrapezoidalVelocity` decodes the same four
bytes with the signed `BytesToLong` before `CountsToAcceleration`. -/
theorem C10_theorem (k : KDC101) (profile : VelocityProfile) (c : Unicomm)
    (h1 : 2 ^ 31 ≤ k.AccelerationToCounts profile.acceleration)
    (h2 : k.AccelerationToCounts profile.acceleration < 2 ^ 32) :
    TrapAccelSignFlaw k profile c := by
  have hlong : BytesToLong (DwordToBytes
      (k.AccelerationToCounts profile.acceleration)) =
      (k.AccelerationToCounts profile.acceleration : Int) - 2 ^ 32 := by
    rw [BytesToLong, bytesToDword_dwordToBytes _ h2]
    have hge : ¬ k.AccelerationToCounts profile.acceleration < 2 ^ 31 := by
      omega
    rw [if_neg hge]
  -- the physical constants are nonnegative, and the hypothesis forces the
  -- whole conversion factor and the set acceleration to be positive
  have hT := motorTFactor_nonneg k.motorType
  have hS := stageScalingFactor_nonneg k.stageType
  have hftr : 0 < ftrunc (profile.acceleration *
      (MotorTFactor k.motorType * MotorTFactor k.motorType) * 65536 *
      StageScalingFactor k.stageType) := by
    rw [KDC101.AccelerationToCounts] at h1
    omega
  have hP : 0 < profile.acceleration *
      (MotorTFactor k.motorType * MotorTFactor k.motorType) * 65536 *
      StageScalingFactor k.stageType := pos_of_ftrunc_pos _ hftr
  have hDnn : 0 ≤ MotorTFactor k.motorType * MotorTFactor k.motorType *
      65536 * StageScalingFactor k.stageType := by positivity
  have hD : 0 < MotorTFactor k.motorType * MotorTFactor k.motorType *
      65536 * StageScalingFactor k.stageType := by
    rcases eq_or_lt_of_le hDnn with hz | hpos
    · exfalso
      have : profile.acceleration *
          (MotorTFactor k.motorType * MotorTFactor k.motorType) * 65536 *
          StageScalingFactor k.stageType =
          profile.acceleration *
          (MotorTFactor k.motorType * MotorTFactor k.motorType * 65536 *
           StageScalingFactor k.stageType) := by ring
      rw [this, ← hz, mul_zero] at hP
      exact lt_irrefl 0 hP
    · exact hpos
  have ha : 0 < profile.acceleration := by
    by_contra hna
    push_neg at hna
    have : profile.acceleration *
        (MotorTFactor k.motorType * MotorTFactor k.motorType) * 65536 *
        StageScalingFactor k.stageType ≤ 0 := by
      have : profile.acceleration *
          (MotorTFactor k.motorType * MotorTFactor k.motorType) * 65536 *
          StageScalingFactor k.stageType =
          profile.acceleration *
          (MotorTFactor k.motorType * MotorTFactor k.motorType * 65536 *
           StageScalingFactor k.stageType) := by ring
      rw [this]
      exact mul_nonpos_of_nonpos_of_nonneg hna hDnn
    linarith
  have hneg : k.CountsToAcceleration
      ((k.AccelerationToCounts profile.acceleration : Int) - 2 ^ 32) < 0 := by
    rw [KDC101.CountsToAcceleration]
    apply div_neg_of_neg_of_pos
    · push_cast
      have : ((k.AccelerationToCounts profile.acceleration : ℚ)) < 2 ^ 32 := by
        exact_mod_cast h2
      linarith
    · exact hD
  constructor
  · simp only [SetTrapezoidalVelocity, WriteData, Unicomm.write, chmask,
      DwordToBytes]
    norm_num
    decide
  · refine ⟨⟨k.CountsToVelocity (BytesToDword (DwordToBytes
        (k.VelocityToCounts profile.minVelocity))),
      k.CountsToVelocity (BytesToDword (DwordToBytes
        (k.VelocityToCounts profile.maxVelocity))),
      k.CountsToAcceleration
        ((k.AccelerationToCounts profile.acceleration : Int) - 2 ^ 32)⟩,
      ?_, ?_, hneg, ne_of_lt (lt_trans hneg ha)⟩
    · simp only [DwordToBytes] at hlong
      simp only [GetTrapezoidalVelocity, RequestData, WriteHeaderOnly,
        Outcome.bind, Unicomm.write, Unicomm.read, ReadData, idx, goSlice,
        chmask, DwordToBytes, List.cons_append, List.nil_append]
      norm_num [hlong]
      decide
    · rfl

/-- The acceleration 10^7 mm/s² on the MTS25-Z8 / Brushed calibration
converts to 2638443077 counts, which sits in `[2^31, 2^32)`. -/
theorem accel_counts_value :
    KDC101.AccelerationToCounts (New "MTS25-Z8" "Brushed") 10000000 =
      2638443077 := by
  have hT : MotorTFactor "Brushed" = 2048 / 6000000 := by
    rw [MotorTFactor, MotorTFactorTable]
    simp [List.lookup]
  have hs : StageScalingFactor "MTS25-Z8" = 34554.96 := by
    rw [StageScalingFactor, StageScalingFactorTable]
    simp [List.lookup]
  rw [KDC101.AccelerationToCounts]
  show (ftrunc ((10000000 : ℚ) * (MotorTFactor "Brushed" * MotorTFactor "Brushed") *
    65536 * StageScalingFactor "MTS25-Z8")).toNat = 2638443077
  rw [hT, hs]
  rw [ftrunc_eq_of _ 2638443077 (by norm_num) (by norm_num) (by norm_num)]
  rfl

/-- C10, witness: the round-trip sign flip at acceleration 10^7 mm/s² on
the MTS25-Z8 / Brushed calibration, whose count value 2638443077 lies in
`[2^31, 2^32)`. -/
theorem C10_witness :
    (2 ^ 31 ≤ KDC101.AccelerationToCounts (New "MTS25-Z8" "Brushed") 10000000 ∧
     KDC101.AccelerationToCounts (New "MTS25-Z8" "Brushed") 10000000 < 2 ^ 32) ∧
    TrapAccelSignFlaw (New "MTS25-Z8" "Brushed") ⟨0, 0, 10000000⟩
      ⟨[], [], 0⟩ :=
  ⟨⟨by rw [accel_counts_value]; norm_num,
    by rw [accel_counts_value]; norm_num⟩,
   C10_theorem (New "MTS25-Z8" "Brushed") ⟨0, 0, 10000000⟩ ⟨[], [], 0⟩
     (by rw [show (⟨0, 0, 10000000⟩ : VelocityProfile).acceleration =
         (10000000 : ℚ) from rfl, accel_counts_value]; norm_num)
     (by rw [show (⟨0, 0, 10000000⟩ : VelocityProfile).acceleration =
         (10000000 : ℚ) from rfl, accel_counts_value]; norm_num)⟩
